import Mathlib

set_option maxRecDepth 100000

/-!
Shallow embedding of `src/frame.py`, a one-shot project scaffolding script.

The script is a straight-line sequence of `os.makedirs(..., exist_ok=True)`,
`os.chdir`, `create_file` (an `open(path, "w")` followed by a single write)
and `run_command` (one `subprocess.run(command, check=True, shell=True)`
wrapped in a `try/except subprocess.CalledProcessError`) calls.

The filesystem is modelled as a set of directories plus a map from paths to
file contents; a path is a list of segments, and the script's relative paths
are resolved against a tracked current working directory (`os.chdir` with
`..` segments pops one segment).  `print` calls are pure console output and
are not part of the filesystem trace; `run_command` never raises (proved
separately on the faithful `run_command` model) and its external effects are
outside the scope of this development, so it leaves the modelled state
unchanged.
-/

namespace WebFrame

abbrev Path := List String

/-- The Python exception kinds the modelled filesystem calls can raise. -/
inductive PyErr where
  | fileNotFoundError
  | fileExistsError
  | notADirectoryError
  | isADirectoryError
deriving DecidableEq, Repr

/-- A filesystem: the set of existing directories and the existing files
with their contents.  Paths are absolute (relative to the directory the
script was started in, which is `[]`). -/
structure FS where
  dirs : List Path
  files : List (Path × String)
deriving DecidableEq, Repr

def FS.isDir (fs : FS) (p : Path) : Bool :=
  fs.dirs.contains p

def FS.isFile (fs : FS) (p : Path) : Bool :=
  (fs.files.lookup p).isSome

/-- The content of the file at `p`, when it exists. -/
def fileContent (fs : FS) (p : Path) : Option String :=
  fs.files.lookup p

def FS.addDir (fs : FS) (p : Path) : FS :=
  { fs with dirs := p :: fs.dirs }

/-- Writing a file truncates: the new content replaces whatever entry was
there. -/
def FS.setFile (fs : FS) (p : Path) (c : String) : FS :=
  { fs with files := (p, c) :: fs.files.filter (fun e => !(e.1 == p)) }

/-- Resolve a relative path against the current working directory: a `..`
segment pops one segment, every other segment is appended. -/
def resolve (cwd : Path) (p : Path) : Path :=
  p.foldl (fun acc seg => if seg = ".." then acc.dropLast else acc ++ [seg]) cwd

/-- All the directories along `segs` (each non-empty prefix, extending
`base`) exist in `fs`. -/
def allDirsAlong (fs : FS) (base : Path) : List String → Bool
  | [] => true
  | s :: rest => fs.isDir (base ++ [s]) && allDirsAlong fs (base ++ [s]) rest

/-- `os.makedirs`: walk the path's prefixes, creating the missing ones.
An intermediate that exists as a file raises; on the leaf, an existing
directory raises `FileExistsError` unless `exist_ok`, and an existing file
always raises `FileExistsError`. -/
def osMakedirsAux (fs : FS) (exist_ok : Bool) (base : Path) : List String → Except PyErr FS
  | [] => .ok fs
  | [s] =>
    if fs.isDir (base ++ [s]) then
      if exist_ok then .ok fs else .error .fileExistsError
    else if fs.isFile (base ++ [s]) then .error .fileExistsError
    else .ok (fs.addDir (base ++ [s]))
  | s :: s' :: rest =>
    if fs.isDir (base ++ [s]) then osMakedirsAux fs exist_ok (base ++ [s]) (s' :: rest)
    else if fs.isFile (base ++ [s]) then .error .notADirectoryError
    else osMakedirsAux (fs.addDir (base ++ [s])) exist_ok (base ++ [s]) (s' :: rest)

def osMakedirs (fs : FS) (p : Path) (exist_ok : Bool) : Except PyErr FS :=
  osMakedirsAux fs exist_ok [] p

/-- `open(p, "w")` followed by `file.write(content)`: raises
`IsADirectoryError` when `p` is a directory, raises when the parent
directory is missing or is a file (`open` does not create parent
directories), and otherwise truncates `p` to exactly `content`. -/
def pyOpenWrite (fs : FS) (p : Path) (content : String) : Except PyErr FS :=
  if fs.isDir p then .error .isADirectoryError
  else if fs.isFile p.dropLast then .error .notADirectoryError
  else if fs.isDir p.dropLast then .ok (fs.setFile p content)
  else .error .fileNotFoundError

/-- The effectful statements of `src/frame.py`, in source order.
`makedirs p` stands for `os.makedirs(p, exist_ok=True)`, `createFile p c`
for `create_file(p, c)` (with `c = ""` for the default argument), and
`runCommand cmd` for `run_command(cmd, ...)`. -/
inductive Op where
  | makedirs (p : Path)
  | chdir (p : Path)
  | createFile (p : Path) (content : String)
  | runCommand (command : String)
deriving DecidableEq, Repr

/-- Script state: the current working directory and the filesystem. -/
structure St where
  cwd : Path
  fs : FS
deriving DecidableEq, Repr

def runOp (st : St) : Op → Except PyErr St
  | .makedirs p =>
    (osMakedirs st.fs (resolve st.cwd p) true).map (fun fs' => { st with fs := fs' })
  | .chdir p =>
    if st.fs.isDir (resolve st.cwd p) then .ok { st with cwd := resolve st.cwd p }
    else .error .fileNotFoundError
  | .createFile p content =>
    (pyOpenWrite st.fs (resolve st.cwd p) content).map (fun fs' => { st with fs := fs' })
  | .runCommand _ => .ok st

/-- Run the statements in order; an uncaught exception aborts the script,
returning the state at the raise together with the raising statement and
the exception. -/
def runOps (st : St) : List Op → St × Option (Op × PyErr)
  | [] => (st, none)
  | op :: rest =>
    match runOp st op with
    | .ok st' => runOps st' rest
    | .error e => (st, some (op, e))

/-! Literal file contents from `src/frame.py`.  The Python triple-quoted
strings begin and end with a newline; braces, apostrophes and backticks are
written with `\xNN` escapes. -/

/-- Content of `server/src/database/prisma/schema.prisma` (frame.py lines 128-146). -/
def prisma_schema_content : String :=
  "\ndatasource db \x7b\n  provider = \"postgresql\"\n  url      = env(\"DATABASE_URL\")\n\x7d\n\nmodel User \x7b\n  id        Int      @id @default(autoincrement())\n  email     String   @unique\n  password  String\n  // ...\n\x7d\n\nmodel Property \x7b\n  id        Int      @id @default(autoincrement())\n  address   String\n  // ...\n\x7d\n"

/-- Content of `client/src/feedback/FeedbackForm.tsx` (frame.py lines 82-113). -/
def feedback_form_content : String :=
  "\nimport React, \x7b useState \x7d from \x27react\x27;\nimport axios from \x27axios\x27;\n\nconst FeedbackForm: React.FC = () => \x7b\n  const [feedback, setFeedback] = useState(\x27\x27);\n\n  const handleSubmit = async (e: React.FormEvent) => \x7b\n    e.preventDefault();\n    try \x7b\n      await axios.post(\x27/api/feedback\x27, \x7b feedback \x7d);\n      alert(\x27Feedback submitted successfully\x27);\n      setFeedback(\x27\x27);\n    \x7d catch (error) \x7b\n      console.error(\x27Error submitting feedback:\x27, error);\n    \x7d\n  \x7d;\n\n  return (\n    <form onSubmit=\x7bhandleSubmit\x7d>\n      <textarea\n        value=\x7bfeedback\x7d\n        onChange=\x7b(e) => setFeedback(e.target.value)\x7d\n        placeholder=\"Enter your feedback\"\n      />\n      <button type=\"submit\">Submit Feedback</button>\n    </form>\n  );\n\x7d;\n\nexport default FeedbackForm;\n"

/-- Content of `server/src/scripts/setup-database.ts` (frame.py lines 148-168). -/
def setup_database_content : String :=
  "\nimport \x7b PrismaClient \x7d from \x27@prisma/client\x27;\n\nconst prisma = new PrismaClient();\n\nasync function setupDatabase() \x7b\n  await prisma.user.deleteMany();\n  await prisma.property.deleteMany();\n  // ...\n  await prisma.$disconnect();\n\x7d\n\nsetupDatabase()\n  .catch((e) => \x7b\n    console.error(e);\n    process.exit(1);\n  \x7d)\n  .finally(async () => \x7b\n    await prisma.$disconnect();\n  \x7d);\n"

/-- Content of `server/src/config/secrets.ts` (frame.py lines 171-182). -/
def secrets_content : String :=
  "\nimport AWS from \x27aws-sdk\x27;\n\nconst secretsManager = new AWS.SecretsManager(\x7b\n  region: process.env.AWS_REGION,\n\x7d);\n\nexport async function getSecret(secretName: string): Promise<string> \x7b\n  const data = await secretsManager.getSecretValue(\x7b SecretId: secretName \x7d).promise();\n  return data.SecretString;\n\x7d\n"

/-- Content of `server/src/scripts/provision-certificate.ts` (frame.py lines 185-210). -/
def provision_certificate_content : String :=
  "\nimport \x7b spawnSync \x7d from \x27child_process\x27;\n\nfunction provisionCertificate() \x7b\n  const domain = process.env.DOMAIN;\n  const email = process.env.CERT_EMAIL;\n\n  const result = spawnSync(\x27certbot\x27, [\n    \x27certonly\x27,\n    \x27--standalone\x27,\n    \x27--noninteractive\x27,\n    \x27--agree-tos\x27,\n    \x60--email=$\x7bemail\x7d\x60,\n    \x60-d=$\x7bdomain\x7d\x60,\n  ]);\n\n  if (result.status !== 0) \x7b\n    console.error(\x27Certificate provisioning failed\x27);\n    process.exit(1);\n  \x7d\n\n  console.log(\x27Certificate provisioned successfully\x27);\n\x7d\n\nprovisionCertificate();\n"

/-- Content of `performance-tests/load-test.jmx` (frame.py lines 214-225). -/
def load_test_jmx_content : String :=
  "\n<?xml version=\"1.0\" encoding=\"UTF-8\"?>\n<jmeterTestPlan version=\"1.2\" properties=\"5.0\" jmeter=\"5.4.1\">\n  <!-- ... -->\n  <hashTree>\n    <ThreadGroup guiclass=\"ThreadGroupGui\" testclass=\"ThreadGroup\" testname=\"Thread Group\">\n      <!-- ... -->\n    </ThreadGroup>\n    <!-- ... -->\n  </hashTree>\n</jmeterTestPlan>\n"

/-- The effectful statements of `src/frame.py` in source order (lines
16-257).  `os_name_nt` is Python's `os.name == "nt"` test at line 249,
which only selects the virtual-environment activation command string.
`os.path.join` results are written as segment lists. -/
def script (os_name_nt : Bool) : List Op := [
  .makedirs ["real-estate-website"],
  .chdir ["real-estate-website"],
  .makedirs ["client"],
  .makedirs ["client", "public"],
  .makedirs ["client", "src", "components"],
  .makedirs ["client", "src", "pages"],
  .makedirs ["client", "src", "services"],
  .makedirs ["client", "src", "styles"],
  .makedirs ["client", "src", "feedback"],
  .makedirs ["server"],
  .makedirs ["server", "src", "controllers"],
  .makedirs ["server", "src", "middlewares"],
  .makedirs ["server", "src", "models"],
  .makedirs ["server", "src", "routes"],
  .makedirs ["server", "src", "services"],
  .makedirs ["server", "src", "database"],
  .makedirs ["server", "src", "config"],
  .makedirs ["server", "src", "scripts"],
  .makedirs ["ml-service"],
  .makedirs ["ml-service", "src", "models"],
  .makedirs ["ml-service", "src", "preprocessors"],
  .createFile [".gitignore"] "",
  .createFile ["README.md"] "",
  .createFile ["docker-compose.yml"] "",
  .createFile ["client", "tailwind.config.js"] "",
  .createFile ["client", "tsconfig.json"] "",
  .createFile ["client", "package.json"] "",
  .createFile ["server", ".env"] "",
  .createFile ["server", "tsconfig.json"] "",
  .createFile ["server", "package.json"] "",
  .createFile ["ml-service", "Dockerfile"] "",
  .createFile ["ml-service", "src", "app.py"] "",
  .createFile ["ml-service", "src", "requirements.txt"] "",
  .createFile ["client", "src", "pages", "Home.tsx"] "// Home page placeholder content",
  .createFile ["client", "src", "pages", "AboutUs.tsx"] "// About Us page placeholder content",
  .createFile ["client", "src", "pages", "Login.tsx"] "// Login page placeholder content",
  .createFile ["client", "src", "pages", "CreateAccount.tsx"] "// Create Account page placeholder content",
  .createFile ["client", "src", "pages", "DeleteAccount.tsx"] "// Delete Account page placeholder content",
  .createFile ["client", "src", "components", "Header.tsx"] "// Header component placeholder content",
  .createFile ["client", "src", "components", "Footer.tsx"] "// Footer component placeholder content",
  .createFile ["client", "src", "components", "PropertyCard.tsx"] "// Property Card component placeholder content",
  .createFile ["client", "src", "components", "SearchBar.tsx"] "// Search Bar component placeholder content",
  .createFile ["client", "src", "feedback", "FeedbackForm.tsx"] feedback_form_content,
  .createFile ["server", "src", "routes", "authRoutes.ts"] "// Authentication routes placeholder content",
  .createFile ["server", "src", "routes", "propertyRoutes.ts"] "// Property routes placeholder content",
  .createFile ["server", "src", "controllers", "authController.ts"] "// Authentication controller placeholder content",
  .createFile ["server", "src", "controllers", "propertyController.ts"] "// Property controller placeholder content",
  .createFile ["server", "src", "models", "userModel.ts"] "// User model placeholder content",
  .createFile ["server", "src", "models", "propertyModel.ts"] "// Property model placeholder content",
  .createFile ["server", "src", "database", "prisma", "schema.prisma"] prisma_schema_content,
  .createFile ["server", "src", "scripts", "setup-database.ts"] setup_database_content,
  .createFile ["server", "src", "config", "secrets.ts"] secrets_content,
  .createFile ["server", "src", "scripts", "provision-certificate.ts"] provision_certificate_content,
  .createFile ["performance-tests", "load-test.jmx"] load_test_jmx_content,
  .runCommand "npm init -y",
  .runCommand "npm install express pg firebase dotenv jsonwebtoken bcrypt prisma aws-sdk",
  .chdir ["client"],
  .runCommand "npx create-react-app . --template typescript --use-npm",
  .runCommand "npm install axios react-router-dom firebase",
  .runCommand "npm install -D tailwindcss@latest postcss@latest autoprefixer@latest",
  .runCommand "npx tailwindcss init -p",
  .chdir ["..", "ml-service"],
  .runCommand "python -m venv venv",
  .runCommand (if os_name_nt then "venv/Scripts/activate" else "source venv/bin/activate"),
  .runCommand "pip install flask numpy pandas scikit-learn joblib flask-cors jmeter grafana prometheus",
  .chdir ["..", ".."],
  .runCommand "git init"]

/-- A fresh start: the script is launched in an empty directory. -/
def freshInit : St :=
  { cwd := [], fs := { dirs := [[]], files := [] } }

/-- A start state in which the two directories the script writes into but
never creates (`real-estate-website/server/src/database/prisma` and
`real-estate-website/performance-tests`) already exist, so that a run can
reach its end. -/
def seededInit : St :=
  { cwd := [],
    fs := { dirs := [[],
                     ["real-estate-website"],
                     ["real-estate-website", "server"],
                     ["real-estate-website", "server", "src"],
                     ["real-estate-website", "server", "src", "database"],
                     ["real-estate-website", "server", "src", "database", "prisma"],
                     ["real-estate-website", "performance-tests"]],
            files := [] } }

/-- The first (seeded, completing) run of the script. -/
def firstRun : St × Option (Op × PyErr) :=
  runOps seededInit (script false)

/-- A second run of the script started in the same directory, over the
filesystem the first run left behind. -/
def secondRun : St × Option (Op × PyErr) :=
  runOps { cwd := [], fs := firstRun.fst.fs } (script false)

/-- Every `create_file(p, c)` statement of `ops` left the file at
`base ++ p` holding exactly `c` in `fs`. -/
def createFilesDelivered (ops : List Op) (base : Path) (fs : FS) : Bool :=
  ops.all fun op =>
    match op with
    | .createFile p c => fileContent fs (base ++ p) == some c
    | _ => true

/-! `run_command` (frame.py lines 4-9), modelled faithfully with the
outcome of the external command as an explicit oracle. -/

/-- The possible outcomes of the external command behind a
`subprocess.run(..., check=True)` call. -/
inductive SubprocessOutcome where
  | success
  | calledProcessError
deriving DecidableEq, Repr

/-- The exception `subprocess.run` raises when `check=True` and the command
exits non-zero. -/
inductive CalledProcessError where
  | mk
deriving DecidableEq, Repr

/-- What a call to `run_command` did: the lines it printed, how many times
it invoked `subprocess.run`, and whether an exception escaped it. -/
structure CommandEffect where
  printed : List String
  subprocess_calls : Nat
  raised : Bool
deriving DecidableEq, Repr

/-- `subprocess.run(command, check=check, shell=True)`: one invocation of
the command; with `check` set, a failing command raises
`CalledProcessError`.  Returns the result together with the number of
command invocations this call performed. -/
def subprocess_run (_command : String) (check : Bool) (outcome : SubprocessOutcome) :
    Except CalledProcessError Unit × Nat :=
  match outcome, check with
  | .success, _ => (.ok (), 1)
  | .calledProcessError, true => (.error .mk, 1)
  | .calledProcessError, false => (.ok (), 1)

/-- `run_command(command, success_message, error_message)` (frame.py lines
4-9): a single `subprocess.run(command, check=True, shell=True)` in a
`try`, with `except subprocess.CalledProcessError` printing the error
message; both paths return normally. -/
def run_command (command success_message error_message : String)
    (outcome : SubprocessOutcome) : CommandEffect :=
  match subprocess_run command true outcome with
  | (.ok _, n) =>
    { printed := ["[SUCCESS] " ++ success_message], subprocess_calls := n, raised := false }
  | (.error _, n) =>
    { printed := ["[ERROR] " ++ error_message], subprocess_calls := n, raised := false }

/-! The configuration-driven setup variant.  Modelled from the spec: the
repository's extended and class-based script variants (a YAML configuration
loader with required dotted-path keys, and setup steps that append
per-subsystem `docker-compose.yml` fragments and emit `prometheus.yml`,
`grafana-datasources.yml`, `.env`-style files and a CI workflow file) are
not under `src/`; only the plain script `src/frame.py` is.  The definitions
below follow spec sections 6-8. -/

/-- Modelled from the spec: the required dotted-path configuration keys;
missing keys abort startup (spec section 6). -/
def required_keys : List String :=
  ["cloud.aws.access_key", "cloud.firebase.project_id", "database.postgres_user",
   "domains.primary_domain", "ssl.email"]

/-- A loaded configuration: a flat mapping from dotted-path keys to
values. -/
abbrev Config := List (String × String)

/-- Modelled from the spec: the required keys absent from a
configuration. -/
def missing_keys (cfg : Config) : List String :=
  required_keys.filter (fun k => (cfg.lookup k).isNone)

/-- Modelled from the spec: the per-subsystem `docker-compose.yml`
fragments, appended one per subsystem (spec section 6). -/
def subsystem_compose_fragments : List (String × String) :=
  [("client", "  client:\n    build: ./client\n"),
   ("server", "  server:\n    build: ./server\n"),
   ("ml-service", "  ml-service:\n    build: ./ml-service\n")]

/-- Modelled from the spec: the emitted `prometheus.yml` content. -/
def prometheus_yml_content : String :=
  "global:\n  scrape_interval: 15s\n"

/-- Modelled from the spec: the emitted `grafana-datasources.yml`
content. -/
def grafana_datasources_content : String :=
  "apiVersion: 1\ndatasources:\n  - name: Prometheus\n"

/-- Modelled from the spec: the emitted CI workflow file content. -/
def ci_workflow_content : String :=
  "name: CI\non: push\n"

/-- Modelled from the spec: what a configured setup run did — its exit
code, the final `docker-compose.yml` content, and the files it wrote. -/
structure ClassRun where
  exit_code : Nat
  compose : String
  files : List (String × String)
deriving DecidableEq, Repr

/-- Modelled from the spec: the artifacts a configured setup run emits —
the per-subsystem fragments appended in order to `docker-compose.yml`, and
the written files: `prometheus.yml`, `grafana-datasources.yml`, the
Postgres `.env`-style file generated from the configuration, the CI
workflow file, and the placeholder source files (spec sections 4 and 6). -/
def class_emit (cfg : Config) : String × List (String × String) :=
  (subsystem_compose_fragments.foldl (fun acc f => acc ++ f.2) "",
   [("prometheus.yml", prometheus_yml_content),
    ("grafana-datasources.yml", grafana_datasources_content),
    ("server/.env", "POSTGRES_USER=" ++ ((cfg.lookup "database.postgres_user").getD "") ++ "\n"),
    (".github/workflows/ci.yml", ci_workflow_content),
    ("client/src/pages/Home.tsx", "// Home page placeholder content")])

/-- Modelled from the spec: a configured setup run validates the required
keys first and exits with a non-zero status before any side effect when one
is missing; with a valid configuration it performs the setup steps and
exits with status zero (spec sections 6-8). -/
def run_class_setup (cfg : Config) : ClassRun :=
  if missing_keys cfg = [] then
    { exit_code := 0, compose := (class_emit cfg).1, files := (class_emit cfg).2 }
  else
    { exit_code := 1, compose := "", files := [] }

/-- The working directory after the statements of `ops`: only `chdir`
changes it, by resolving its argument against the current one. -/
def cwdAfter (c : Path) : List Op → Path
  | [] => c
  | .chdir p :: rest => cwdAfter (resolve c p) rest
  | .makedirs _ :: rest => cwdAfter c rest
  | .createFile _ _ :: rest => cwdAfter c rest
  | .runCommand _ :: rest => cwdAfter c rest

/-- A configuration carrying all five required dotted-path keys. -/
def sample_config : Config :=
  [("cloud.aws.access_key", "AKIA-SAMPLE"),
   ("cloud.firebase.project_id", "sample-project"),
   ("database.postgres_user", "postgres"),
   ("domains.primary_domain", "example.com"),
   ("ssl.email", "admin@example.com")]

/-! Helper lemmas. -/

theorem osMakedirsAux_all_dirs (segs : List String) :
    ∀ (fs : FS) (base : Path), allDirsAlong fs base segs = true →
      osMakedirsAux fs true base segs = .ok fs := by
  induction segs with
  | nil => intro fs base _; rfl
  | cons s rest ih =>
    intro fs base h
    cases rest with
    | nil =>
      simp only [allDirsAlong, Bool.and_true] at h
      simp [osMakedirsAux, h]
    | cons s' rest' =>
      simp only [allDirsAlong, Bool.and_eq_true] at h
      simp only [osMakedirsAux, h.1, if_true]
      exact ih fs (base ++ [s]) (by simp only [allDirsAlong, Bool.and_eq_true]; exact h.2)

theorem pyOpenWrite_content (fs : FS) (p : Path) (c : String) (fs' : FS)
    (h : pyOpenWrite fs p c = .ok fs') : fileContent fs' p = some c := by
  simp only [pyOpenWrite] at h
  split_ifs at h
  have hfs : fs.setFile p c = fs' := by injection h
  rw [← hfs]
  simp [fileContent, FS.setFile, List.lookup]

theorem runOp_ok_cwd {st st1 : St} {op : Op} (h : runOp st op = .ok st1) :
    st1.cwd = cwdAfter st.cwd [op] := by
  cases op with
  | makedirs p =>
    simp only [runOp] at h
    cases hm : osMakedirs st.fs (resolve st.cwd p) true with
    | ok fs0 =>
      rw [hm] at h
      simp only [Except.map] at h
      have : ({ st with fs := fs0 } : St) = st1 := by injection h
      rw [← this]
      rfl
    | error e => rw [hm] at h; exact Except.noConfusion h
  | chdir p =>
    simp only [runOp] at h
    split_ifs at h
    have : ({ st with cwd := resolve st.cwd p } : St) = st1 := by injection h
    rw [← this]
    rfl
  | createFile p c =>
    simp only [runOp] at h
    cases hm : pyOpenWrite st.fs (resolve st.cwd p) c with
    | ok fs0 =>
      rw [hm] at h
      simp only [Except.map] at h
      have : ({ st with fs := fs0 } : St) = st1 := by injection h
      rw [← this]
      rfl
    | error e => rw [hm] at h; exact Except.noConfusion h
  | runCommand cmd =>
    simp only [runOp] at h
    have : st = st1 := by injection h
    rw [← this]
    rfl

theorem runOps_cwd (ops : List Op) :
    ∀ (st st' : St), runOps st ops = (st', none) → st'.cwd = cwdAfter st.cwd ops := by
  induction ops with
  | nil =>
    intro st st' h
    simp only [runOps, Prod.mk.injEq] at h
    rw [← h.1]
    rfl
  | cons op rest ih =>
    intro st st' h
    cases hop : runOp st op with
    | error e =>
      rw [runOps, hop] at h
      simp at h
    | ok st1 =>
      rw [runOps, hop] at h
      have hrest := ih st1 st' h
      rw [hrest]
      have hcwd := runOp_ok_cwd hop
      cases op with
      | makedirs p => simpa [cwdAfter] using congrArg (fun c => cwdAfter c rest) hcwd
      | chdir p => simpa [cwdAfter] using congrArg (fun c => cwdAfter c rest) hcwd
      | createFile p c => simpa [cwdAfter] using congrArg (fun c => cwdAfter c rest) hcwd
      | runCommand cmd => simpa [cwdAfter] using congrArg (fun c => cwdAfter c rest) hcwd

theorem cwdAfter_script (b : Bool) (c : Path) : cwdAfter c (script b) = c := by
  show ((((c ++ ["real-estate-website"]) ++ ["client"]).dropLast
      ++ ["ml-service"]).dropLast).dropLast = c
  simp only [List.dropLast_concat]

/-! Claim theorems. -/

/-- Claim C1: the claim says every run with a valid configuration completes
without raising, reaching the final success message; `src/frame.py` takes
no configuration, and on a fresh start (no `real-estate-website` tree
pre-existing) the run aborts with an uncaught exception before its last
statement, so the claim fails on the code as written. -/
theorem c1_fresh_run_does_not_complete :
    (runOps freshInit (script false)).snd.isSome = true := by rfl

/-- Claim C2 (spec-modelled): for every configuration missing one of the
required dotted-path keys, the configured setup exits with a non-zero
status having performed no side effect: nothing appended to
`docker-compose.yml` and no file written. -/
theorem c2_missing_key_aborts_without_effects (cfg : Config) (k : String)
    (hk : k ∈ required_keys) (hmiss : cfg.lookup k = none) :
    (run_class_setup cfg).exit_code ≠ 0 ∧
    (run_class_setup cfg).compose = "" ∧
    (run_class_setup cfg).files = [] := by
  have hne : missing_keys cfg ≠ [] := by
    have hm : k ∈ missing_keys cfg := by
      simp [missing_keys, List.mem_filter, hk, hmiss]
    exact List.ne_nil_of_mem hm
  simp [run_class_setup, hne]

/-- Witness for C2: a configuration holding only the AWS key misses
`ssl.email` and is rejected with no effects. -/
theorem c2_missing_key_aborts_witness :
    (run_class_setup [("cloud.aws.access_key", "AKIA-SAMPLE")]).exit_code ≠ 0 ∧
    (run_class_setup [("cloud.aws.access_key", "AKIA-SAMPLE")]).compose = "" ∧
    (run_class_setup [("cloud.aws.access_key", "AKIA-SAMPLE")]).files = [] :=
  c2_missing_key_aborts_without_effects
    [("cloud.aws.access_key", "AKIA-SAMPLE")] "ssl.email" (by decide) (by rfl)

/-- Counterexample to claim C3: the claim says the second run appends
further sections so that after two runs `docker-compose.yml` differs from
its content after one run; in fact both runs complete and the content after
two runs equals the content after one run. -/
theorem c3_counterexample_rerun_compose_unchanged :
    firstRun.snd = none ∧ secondRun.snd = none ∧
    fileContent secondRun.fst.fs ["real-estate-website", "docker-compose.yml"] =
      fileContent firstRun.fst.fs ["real-estate-website", "docker-compose.yml"] :=
  ⟨by rfl, by rfl, by rfl⟩

/-- Claim C3 as amended: `create_file` opens `docker-compose.yml` in `w`
mode, so re-running overwrites it with the same empty content: after one
run and after two runs the file holds exactly `""`. -/
theorem c3_amended_rerun_overwrites_compose :
    fileContent firstRun.fst.fs ["real-estate-website", "docker-compose.yml"] = some "" ∧
    fileContent secondRun.fst.fs ["real-estate-website", "docker-compose.yml"] = some "" :=
  ⟨by rfl, by rfl⟩

/-- Counterexample to claim C4: the claim says each generated file exists
at its expected path after a run; after a fresh run
`server/src/database/prisma/schema.prisma` does not exist, because the run
aborts at that very `create_file` call. -/
theorem c4_counterexample_schema_prisma_not_created :
    fileContent (runOps freshInit (script false)).fst.fs
      ["real-estate-website", "server", "src", "database", "prisma", "schema.prisma"] =
      none := by rfl

/-- Claim C4 as amended: after a run that completes (the two parent
directories the script never creates pre-existing), every `create_file`
call of the script left its file at its expected path under
`real-estate-website` with exactly the literal content passed, the files
created with no content argument holding the empty string. -/
theorem c4_amended_completed_run_files_exact :
    firstRun.snd = none ∧
    createFilesDelivered (script false) ["real-estate-website"] firstRun.fst.fs = true :=
  ⟨by rfl, by rfl⟩

/-- Claim C5: for every external command invocation, `run_command` calls
`subprocess.run` exactly once, never propagates an exception — on
`CalledProcessError` it prints the error message and returns normally — so
failure is non-fatal and never retried. -/
theorem c5_run_command_single_call_nonfatal
    (command success_message error_message : String) (outcome : SubprocessOutcome) :
    (run_command command success_message error_message outcome).subprocess_calls = 1 ∧
    (run_command command success_message error_message outcome).raised = false ∧
    (run_command command success_message error_message
        SubprocessOutcome.calledProcessError).printed =
      ["[ERROR] " ++ error_message] := by
  cases outcome <;> exact ⟨rfl, rfl, rfl⟩

/-- Claim C6: directory creation is idempotent — for every `os.makedirs`
statement of the script, running it in a state where the target directory
(and the directories along its path) already exists raises no error and
leaves the state unchanged. -/
theorem c6_makedirs_idempotent (b : Bool) (st : St) (p : Path)
    (_hmem : Op.makedirs p ∈ script b)
    (h : allDirsAlong st.fs [] (resolve st.cwd p) = true) :
    runOp st (.makedirs p) = .ok st := by
  simp only [runOp, osMakedirs]
  rw [osMakedirsAux_all_dirs (resolve st.cwd p) st.fs [] h]
  rfl

/-- Witness for C6: re-running the first `os.makedirs` of the script when
`real-estate-website` already exists succeeds and changes nothing. -/
theorem c6_makedirs_idempotent_witness :
    runOp { cwd := [], fs := { dirs := [[], ["real-estate-website"]], files := [] } }
      (Op.makedirs ["real-estate-website"]) =
    .ok { cwd := [], fs := { dirs := [[], ["real-estate-website"]], files := [] } } :=
  c6_makedirs_idempotent false
    { cwd := [], fs := { dirs := [[], ["real-estate-website"]], files := [] } }
    ["real-estate-website"] (by decide) (by decide)

/-- Claim C7 (spec-modelled): a configured setup run with a valid
configuration generates the artifacts the interface section lists — the
per-subsystem fragments appended in order to `docker-compose.yml`, a
`prometheus.yml`, a `grafana-datasources.yml`, a `.env`-style file, a CI
workflow file, and the placeholder source files. -/
theorem c7_valid_config_emits_artifacts (cfg : Config)
    (h : missing_keys cfg = []) :
    (run_class_setup cfg).exit_code = 0 ∧
    (run_class_setup cfg).compose =
      "  client:\n    build: ./client\n" ++ "  server:\n    build: ./server\n" ++
        "  ml-service:\n    build: ./ml-service\n" ∧
    (run_class_setup cfg).files.lookup "prometheus.yml" = some prometheus_yml_content ∧
    (run_class_setup cfg).files.lookup "grafana-datasources.yml" =
      some grafana_datasources_content ∧
    (run_class_setup cfg).files.lookup "server/.env" =
      some ("POSTGRES_USER=" ++ ((cfg.lookup "database.postgres_user").getD "") ++ "\n") ∧
    (run_class_setup cfg).files.lookup ".github/workflows/ci.yml" = some ci_workflow_content ∧
    (run_class_setup cfg).files.lookup "client/src/pages/Home.tsx" =
      some "// Home page placeholder content" := by
  have e : run_class_setup cfg =
      { exit_code := 0, compose := (class_emit cfg).1, files := (class_emit cfg).2 } := by
    unfold run_class_setup
    rw [if_pos h]
  rw [e]
  exact ⟨rfl, rfl, rfl, rfl, rfl, rfl, rfl⟩

/-- Witness for C7: the sample configuration carries all five required keys
and its run emits every listed artifact; in particular `prometheus.yml` is
written and the compose fragments are appended. -/
theorem c7_valid_config_emits_artifacts_witness :
    (run_class_setup sample_config).exit_code = 0 ∧
    (run_class_setup sample_config).files.lookup "prometheus.yml" =
      some prometheus_yml_content :=
  ⟨(c7_valid_config_emits_artifacts sample_config (by rfl)).1,
   (c7_valid_config_emits_artifacts sample_config (by rfl)).2.2.1⟩

/-- Claim C8: `create_file` overwrites rather than appends — whenever a
`create_file(p, c)` statement returns normally, the file at the resolved
path holds exactly `c`, whatever it contained before (the `w` mode open
truncates). -/
theorem c8_create_file_overwrites (st : St) (p : Path) (c : String) (st' : St)
    (h : runOp st (.createFile p c) = .ok st') :
    fileContent st'.fs (resolve st.cwd p) = some c := by
  simp only [runOp] at h
  cases hw : pyOpenWrite st.fs (resolve st.cwd p) c with
  | error e => rw [hw] at h; exact Except.noConfusion h
  | ok fs0 =>
    rw [hw] at h
    simp only [Except.map] at h
    have hst : ({ st with fs := fs0 } : St) = st' := by injection h
    rw [← hst]
    exact pyOpenWrite_content st.fs (resolve st.cwd p) c fs0 hw

/-- Witness for C8: writing `.gitignore` over a previous content `"old"`
leaves exactly the new content. -/
theorem c8_create_file_overwrites_witness :
    fileContent (FS.mk [[]] [([".gitignore"], "new")]) [".gitignore"] = some "new" :=
  c8_create_file_overwrites
    { cwd := [], fs := { dirs := [[]], files := [([".gitignore"], "old")] } }
    [".gitignore"] "new"
    { cwd := [], fs := { dirs := [[]], files := [([".gitignore"], "new")] } }
    (by rfl)

/-- Claim C9: no `os.makedirs` statement of the script creates
`server/src/database/prisma` or `performance-tests`, and on a fresh run the
script raises `FileNotFoundError` at the `schema.prisma` write — the first
`create_file` reached whose parent directory is missing — because
`open(..., "w")` does not create parent directories. -/
theorem c9_missing_parent_dirs_fail :
    Op.makedirs ["server", "src", "database", "prisma"] ∉ script false ∧
    Op.makedirs ["performance-tests"] ∉ script false ∧
    (runOps freshInit (script false)).snd =
      some (Op.createFile ["server", "src", "database", "prisma", "schema.prisma"]
              prisma_schema_content,
            PyErr.fileNotFoundError) :=
  ⟨by decide, by decide, by rfl⟩

/-- Claim C10: on any run of the script that completes, the final
`os.chdir(os.path.join("..", ".."))` brings the working directory back to
the one the script was started in, so the concluding `git init` runs in the
original working directory, outside `real-estate-website`. -/
theorem c10_final_chdir_restores_cwd (b : Bool) (st st' : St)
    (h : runOps st (script b) = (st', none)) : st'.cwd = st.cwd := by
  rw [runOps_cwd (script b) st st' h, cwdAfter_script]

/-- Witness for C10: the completing seeded run ends with the working
directory back at the start directory. -/
theorem c10_final_chdir_restores_cwd_witness :
    (runOps seededInit (script false)).fst.cwd = ([] : Path) :=
  c10_final_chdir_restores_cwd false seededInit
    (runOps seededInit (script false)).fst (by rfl)

end WebFrame
